import Mathlib

/-!
Shallow embedding of the TuniMed medicine-redistribution workflow core:
the declaration state machine (resources/medicines.py), the eligibility
evaluator (models/user.py), the proposition expiration sweeper
(utils/scheduler.py), the input validators (utils/validation.py), the role
vocabulary (utils/enums.py), registration (resources/auth.py) and the role
gate (decorators/decorators.py).

Conventions of the embedding:
- timestamps (datetime.utcnow(), expiration_date, ...) are Nat; the current
  time is passed explicitly as `now`;
- statuses, roles, decisions and error codes are the String literals of the
  source (the source is stringly typed at every check site);
- JSON request values that the source stores or converts without a prior
  type check are a small JsonVal type;
- a Flask route acting on one row is a pure function from the row and the
  request to an outcome record carrying the HTTP status, the error code of
  the JSON payload (none on success), the row state after the request, and
  the audit-log entries appended by the request.
-/

namespace TuniMed

/-- JSON-like values as delivered by request.get_json(). -/
inductive JsonVal where
  | str (s : String)
  | int (n : Int)
  | bool (b : Bool)
  | null
  deriving Repr, DecidableEq

/-- Python str.upper() on the ASCII strings of this code base: uppercase
every character. -/
def pyUpper (s : String) : String := ⟨s.data.map Char.toUpper⟩

/-- Decimal digit run to Nat, none when empty or a non-digit appears. -/
def digitsToNat? (cs : List Char) : Option Nat :=
  if cs = [] then none
  else if cs.all (fun c => c.isDigit) then
    some (cs.foldl (fun n c => 10 * n + (c.toNat - 48)) 0)
  else none

/-- Python int(string): an optional sign followed by decimal digits parses,
anything else raises ValueError, modelled as none. -/
def pyIntOfString (s : String) : Option Int :=
  match s.data with
  | '-' :: rest => (digitsToNat? rest).map (fun n => -(n : Int))
  | '+' :: rest => (digitsToNat? rest).map (fun n => (n : Int))
  | cs => (digitsToNat? cs).map (fun n => (n : Int))

/-- Python int(value) as used by validate_integer_field: ints pass through,
decimal string literals parse, bools coerce to 0 or 1, anything else raises
(TypeError or ValueError), modelled as none. -/
def pyInt : JsonVal → Option Int
  | .int n => some n
  | .str s => pyIntOfString s
  | .bool b => some (if b then 1 else 0)
  | .null => none

/-- A BadRequest error from utils/errors.py: BadRequest(message, error_code). -/
structure ApiError where
  message : String
  error_code : String
  deriving Repr, DecidableEq

/-- Projection of the error code out of a fallible validator result. -/
def except_error_code {α : Type} : Except ApiError α → Option String
  | .error e => some e.error_code
  | .ok _ => none

/-- models/user.py Medicine: a medicine declaration row. Column defaults of
the model are applied by the constructors below. -/
structure Medicine where
  id : Nat
  name : String
  amm : String
  batch_number : String
  expiration_date : Nat
  -- The column is Integer, but the declare route stores the raw request
  -- value without validation and SQLite persists it as given.
  quantity : JsonVal
  is_imported : Bool
  country_of_origin : Option String
  status : String
  citizen_id : Nat
  safety_rating : Int
  pharmacy_verified_at : Option Nat
  pharmacy_verified_by : Option Nat
  pharmacy_notes : Option String
  regulatory_validated_at : Option Nat
  regulatory_validated_by : Option Nat
  regulatory_notes : Option String
  is_recalled : Bool
  created_at : Nat
  updated_at : Nat
  deriving Repr, DecidableEq

/-- models/user.py Medicine.is_expired: datetime.utcnow() > self.expiration_date. -/
def Medicine.is_expired (m : Medicine) (now : Nat) : Bool :=
  now > m.expiration_date

/-- models/user.py Medicine.can_be_redistributed: the eligibility evaluator. -/
def Medicine.can_be_redistributed (m : Medicine) (now : Nat) : Bool :=
  if m.is_expired now then false
  else if m.is_imported then false
  else if m.is_recalled then false
  else if !(["APPROVED_FOR_REDISTRIBUTION", "RESTRICTED_USE"].contains m.status) then false
  else true

/-- models/user.py AuditLog: one appended audit row. -/
structure AuditLogEntry where
  user_id : Nat
  action : String
  entity_type : String
  entity_id : Option Nat
  details : List (String × JsonVal)
  deriving Repr, DecidableEq

/-- utils/validation.py validate_integer_field. -/
def validate_integer_field (value : JsonVal) (field_name : String)
    (min_value max_value : Option Int) : Except ApiError Int :=
  match pyInt value with
  | none => .error ⟨field_name ++ " must be an integer", "invalid_integer_type"⟩
  | some int_value =>
    match min_value with
    | some mn =>
      if int_value < mn then
        .error ⟨field_name ++ " must be at least " ++ toString mn, "integer_below_minimum"⟩
      else
        match max_value with
        | some mx =>
          if int_value > mx then
            .error ⟨field_name ++ " must be at most " ++ toString mx, "integer_above_maximum"⟩
          else .ok int_value
        | none => .ok int_value
    | none =>
      match max_value with
      | some mx =>
        if int_value > mx then
          .error ⟨field_name ++ " must be at most " ++ toString mx, "integer_above_maximum"⟩
        else .ok int_value
      | none => .ok int_value

/-- utils/validation.py validate_date_not_expired: rejects with code
expired_date when expiration_date <= datetime.utcnow(). -/
def validate_date_not_expired (now : Nat) (expiration_date : Nat)
    (field_name : String) : Except ApiError Nat :=
  if expiration_date ≤ now then
    .error ⟨field_name ++ " has already passed. Cannot declare expired items.",
            "expired_date"⟩
  else .ok expiration_date

/-- Outcome of a route that acts on one already-looked-up medicine row:
HTTP status, the "code" field of the JSON payload (none on success), the
"msg" field, the row state after the request, and the audit entries the
request appended. The not-found branch (404 before the row exists) is
upstream of these functions and has no row to report. -/
structure TransitionOutcome where
  http : Nat
  code : Option String
  msg : String
  medicine : Medicine
  audits : List AuditLogEntry
  deriving Repr, DecidableEq

/-- Request body of POST /medicines/verify: optional is_valid and notes. -/
structure VerifyRequest where
  is_valid : Option Bool
  notes : Option String
  deriving Repr, DecidableEq

/-- resources/medicines.py verify_medicine, after the row lookup: reject
with invalid_status unless status is SUBMITTED, otherwise move to
PHARMACY_VERIFIED or PHARMACY_REJECTED according to is_valid (default
True), stamping the pharmacist identity, timestamp and notes, and append
one audit entry. -/
def verify_medicine (now current_user_id : Nat) (m : Medicine)
    (req : VerifyRequest) : TransitionOutcome :=
  if m.status ≠ "SUBMITTED" then
    { http := 400, code := some "invalid_status",
      msg := "Cannot verify medicine with status: " ++ m.status,
      medicine := m, audits := [] }
  else
    let is_valid := req.is_valid.getD true
    let notes := req.notes.getD ""
    let new_status := if is_valid then "PHARMACY_VERIFIED" else "PHARMACY_REJECTED"
    let action := if is_valid then "MEDICINE_PHARMACY_VERIFIED" else "MEDICINE_PHARMACY_REJECTED"
    let m2 := { m with
      status := new_status,
      pharmacy_verified_at := some now,
      pharmacy_verified_by := some current_user_id,
      pharmacy_notes := some notes,
      updated_at := now }
    { http := 200, code := none,
      msg := "Medicine " ++ (if is_valid then "approved" else "rejected") ++ " by pharmacy",
      medicine := m2,
      audits := [⟨current_user_id, action, "MEDICINE", some m.id, [("notes", .str notes)]⟩] }

/-- Request body of POST /medicines/validate: optional decision and notes. -/
structure ValidateRequest where
  decision : Option String
  notes : Option String
  deriving Repr, DecidableEq

/-- resources/medicines.py validate_medicine, after the row lookup: reject
with invalid_status unless status is PHARMACY_VERIFIED; uppercase the
decision (default "APPROVED"); reject with invalid_decision when the
uppercased decision is not APPROVED, RESTRICTED or REJECTED; otherwise set
the corresponding status, stamp the regulatory identity, timestamp and
notes, and append one audit entry. -/
def validate_medicine (now current_user_id : Nat) (m : Medicine)
    (req : ValidateRequest) : TransitionOutcome :=
  if m.status ≠ "PHARMACY_VERIFIED" then
    { http := 400, code := some "invalid_status",
      msg := "Cannot validate medicine with status: " ++ m.status,
      medicine := m, audits := [] }
  else
    let decision := pyUpper (req.decision.getD "APPROVED")
    let notes := req.notes.getD ""
    if !(["APPROVED", "RESTRICTED", "REJECTED"].contains decision) then
      { http := 400, code := some "invalid_decision",
        msg := "Invalid decision. Must be one of APPROVED, RESTRICTED, REJECTED",
        medicine := m, audits := [] }
    else
      let new_status :=
        if decision = "APPROVED" then "APPROVED_FOR_REDISTRIBUTION"
        else if decision = "RESTRICTED" then "RESTRICTED_USE"
        else "REJECTED_REGULATORY"
      let action :=
        if decision = "APPROVED" then "MEDICINE_REGULATORY_APPROVED"
        else if decision = "RESTRICTED" then "MEDICINE_REGULATORY_RESTRICTED"
        else "MEDICINE_REGULATORY_REJECTED"
      let m2 := { m with
        status := new_status,
        regulatory_validated_at := some now,
        regulatory_validated_by := some current_user_id,
        regulatory_notes := some notes,
        updated_at := now }
      { http := 200, code := none,
        msg := "Medicine regulatory validation completed: " ++ decision,
        medicine := m2,
        audits := [⟨current_user_id, action, "MEDICINE", some m.id,
                   [("decision", .str decision), ("notes", .str notes)]⟩] }

/-- Request body of POST /medicines/declarations. expiration_date is the
already-parsed timestamp: datetime.fromisoformat is the parser and its
ValueError branch (invalid_date) is orthogonal to the claims here. -/
structure DeclareData where
  name : Option String
  amm : Option String
  batch_number : Option String
  expiration_date : Option Nat
  quantity : Option JsonVal
  is_imported : Option Bool
  country_of_origin : Option String
  deriving Repr, DecidableEq

/-- Outcome of the declare route: HTTP status, error code of the JSON
payload (none on success), medicine rows created, audit entries created. -/
structure DeclareOutcome where
  http : Nat
  code : Option String
  medicines : List Medicine
  audits : List AuditLogEntry
  deriving Repr, DecidableEq

/-- resources/medicines.py declare_medicine: require the five named fields;
when utcnow() > expiration_date, log a MEDICINE_DECLARATION_REJECTED audit
entry and reject with code expired_medicine; otherwise create the row with
status SUBMITTED, storing the quantity value exactly as it arrived in the
request (the route performs no quantity validation), and log a
MEDICINE_DECLARED audit entry. -/
def declare_medicine (now current_user_id new_id : Nat)
    (data : Option DeclareData) : DeclareOutcome :=
  match data with
  | none => ⟨400, some "invalid_input", [], []⟩
  | some d =>
    if d.name.isNone || d.amm.isNone || d.batch_number.isNone
        || d.expiration_date.isNone || d.quantity.isNone then
      ⟨400, some "invalid_input", [], []⟩
    else
      match d.expiration_date with
      | none => ⟨400, some "invalid_input", [], []⟩
      | some expiration_date =>
        if now > expiration_date then
          ⟨400, some "expired_medicine", [],
           [⟨current_user_id, "MEDICINE_DECLARATION_REJECTED", "MEDICINE", none,
             [("reason", .str "expired_at_submission")]⟩]⟩
        else
          let m : Medicine := {
            id := new_id,
            name := d.name.getD "",
            amm := d.amm.getD "",
            batch_number := d.batch_number.getD "",
            expiration_date := expiration_date,
            quantity := d.quantity.getD .null,
            is_imported := d.is_imported.getD false,
            country_of_origin := d.country_of_origin,
            status := "SUBMITTED",
            citizen_id := current_user_id,
            safety_rating := 100,
            pharmacy_verified_at := none,
            pharmacy_verified_by := none,
            pharmacy_notes := none,
            regulatory_validated_at := none,
            regulatory_validated_by := none,
            regulatory_notes := none,
            is_recalled := false,
            created_at := now,
            updated_at := now }
          ⟨201, none, [m],
           [⟨current_user_id, "MEDICINE_DECLARED", "MEDICINE", some new_id,
             [("name", .str m.name), ("is_imported", .bool m.is_imported)]⟩]⟩

/-- models/user.py MedicineProposition: the public-facing listing row. -/
structure Proposition where
  id : Nat
  medicine_declaration_id : Nat
  status : String
  is_active : Bool
  expired_at : Option Nat
  requesting_facility_id : Option Nat
  requested_at : Option Nat
  created_at : Nat
  updated_at : Nat
  deriving Repr, DecidableEq

/-- A MedicineProposition row as the model column defaults create it:
status AVAILABLE, is_active True, the nullable columns null. -/
def newProposition (now mid i : Nat) : Proposition :=
  { id := i, medicine_declaration_id := mid,
    status := "AVAILABLE", is_active := true,
    expired_at := none, requesting_facility_id := none, requested_at := none,
    created_at := now, updated_at := now }

/-- The inner join of utils/scheduler.py: the medicine row whose id equals
the proposition foreign key, none when it does not resolve (an unresolved
join contributes no selected row). -/
def findMedicine (meds : List Medicine) (i : Nat) : Option Medicine :=
  meds.find? (fun m => m.id == i)

/-- The filter of mark_expired_propositions: status AVAILABLE, is_active
true, and the joined expiration_date strictly before the current time. -/
def sweepMatches (now : Nat) (meds : List Medicine) (p : Proposition) : Bool :=
  p.status == "AVAILABLE" && p.is_active &&
    (match findMedicine meds p.medicine_declaration_id with
     | some m => decide (m.expiration_date < now)
     | none => false)

/-- The per-row update of mark_expired_propositions on a selected row. -/
def expireProposition (now : Nat) (p : Proposition) : Proposition :=
  { p with status := "EXPIRED", is_active := false,
           expired_at := some now, updated_at := now }

/-- utils/scheduler.py mark_expired_propositions: update every selected
row, leave every other row untouched (a batch with zero matches returns
early and writes nothing). -/
def mark_expired_propositions (now : Nat) (meds : List Medicine)
    (props : List Proposition) : List Proposition :=
  props.map (fun p => if sweepMatches now meds p then expireProposition now p else p)

/-- The rows one run of the sweep selects; its length is the count the run
reports as transitioned. -/
def expired_candidates (now : Nat) (meds : List Medicine)
    (props : List Proposition) : List Proposition :=
  props.filter (fun p => sweepMatches now meds p)

/-- The MedicineProposition invariant of the specification: is_active is
false exactly when the status is not AVAILABLE. -/
def propositionInvariant (p : Proposition) : Prop :=
  p.is_active = false ↔ p.status ≠ "AVAILABLE"

instance (p : Proposition) : Decidable (propositionInvariant p) := by
  unfold propositionInvariant; infer_instance

/-- utils/enums.py UserRole: the closed role vocabulary. -/
def all_roles : List String := ["CITIZEN", "PHARMACIST", "HEALTH_FACILITY", "ADMIN"]

/-- utils/enums.py UserRole.is_valid: membership in the role vocabulary. -/
def role_is_valid (role : String) : Bool := all_roles.contains role

/-- models/user.py User, the columns registration writes. -/
structure UserRow where
  id : Nat
  username : String
  email : String
  role : String
  is_active : Bool
  deriving Repr, DecidableEq

/-- Request body of POST /auth/register. -/
structure RegisterData where
  username : Option String
  email : Option String
  password : Option String
  role : Option String
  deriving Repr, DecidableEq

/-- resources/auth.py register: require username, email and password;
default the role to CITIZEN; reject an invalid role with invalid_role;
reject duplicate username or email; otherwise create the user row active
with the requested role. -/
def register (existing : List UserRow) (new_id : Nat)
    (data : RegisterData) : Except ApiError UserRow :=
  if data.username.isNone || data.email.isNone || data.password.isNone then
    .error ⟨"Missing required fields", "missing_required_fields"⟩
  else
    let username := data.username.getD ""
    let email := data.email.getD ""
    let role := data.role.getD "CITIZEN"
    if !(role_is_valid role) then
      .error ⟨"Invalid role. Must be one of " ++ String.intercalate ", " all_roles,
              "invalid_role"⟩
    else if existing.any (fun u => u.username == username) then
      .error ⟨"Username already exists", "user_exists"⟩
    else if existing.any (fun u => u.email == email) then
      .error ⟨"Email already exists", "email_exists"⟩
    else
      .ok ⟨new_id, username, email, role, true⟩

/-- decorators/decorators.py role_required: the looked-up user exists and
its role string equals the required role. -/
def role_required (required_role : String) (user : Option UserRow) : Bool :=
  match user with
  | some u => u.role == required_role
  | none => false

/-- A concrete declaration row (scenario 1 of the specification) at the
given workflow status, for witnesses and counterexamples. -/
def mkMed (status : String) : Medicine :=
  { id := 1, name := "Aspirin", amm := "AMM12345", batch_number := "BATCH001",
    expiration_date := 1000, quantity := .int 10, is_imported := false,
    country_of_origin := none, status := status, citizen_id := 7,
    safety_rating := 100,
    pharmacy_verified_at := none, pharmacy_verified_by := none,
    pharmacy_notes := none,
    regulatory_validated_at := none, regulatory_validated_by := none,
    regulatory_notes := none,
    is_recalled := false, created_at := 0, updated_at := 0 }

/-- An approved, local, non-recalled declaration whose expiration_date is
exactly the current instant used against it. -/
def boundary_medicine : Medicine :=
  { mkMed "APPROVED_FOR_REDISTRIBUTION" with expiration_date := 100 }

/-- A complete declare request whose expiration_date (0) is one day before
the current time used with it (86400). -/
def expired_declare_data : DeclareData :=
  ⟨some "Aspirin", some "AMM12345", some "BATCH001", some 0, some (.int 10),
   none, none⟩

/-- A complete declare request whose expiration_date equals the current
time used with it (86400). -/
def boundary_declare_data : DeclareData :=
  ⟨some "Aspirin", some "AMM12345", some "BATCH001", some 86400,
   some (.int 10), none, none⟩

/-- A complete declare request with quantity 0. -/
def zero_quantity_data : DeclareData :=
  ⟨some "Aspirin", some "AMM12345", some "BATCH001", some 2592000,
   some (.int 0), none, none⟩

/-- A complete declare request with the non-numeric quantity "abc". -/
def string_quantity_data : DeclareData :=
  ⟨some "Aspirin", some "AMM12345", some "BATCH001", some 2592000,
   some (.str "abc"), none, none⟩

/-- An approved declaration, id 1, expired at time 10, backing a sweepable
proposition. -/
def sweep_sample_medicine : Medicine :=
  { mkMed "APPROVED_FOR_REDISTRIBUTION" with expiration_date := 10 }

end TuniMed

namespace TuniMed

/-- C1: verify on a declaration whose status is not SUBMITTED, and validate
on a declaration whose status is not PHARMACY_VERIFIED, reject with HTTP
400, error code invalid_status, a message carrying the current status, the
row unchanged in every field, and no audit entry written. -/
theorem invalid_status_rejection (now uid : Nat) (m : Medicine)
    (vreq : VerifyRequest) (wreq : ValidateRequest) :
    (m.status ≠ "SUBMITTED" →
      verify_medicine now uid m vreq =
        { http := 400, code := some "invalid_status",
          msg := "Cannot verify medicine with status: " ++ m.status,
          medicine := m, audits := [] }) ∧
    (m.status ≠ "PHARMACY_VERIFIED" →
      validate_medicine now uid m wreq =
        { http := 400, code := some "invalid_status",
          msg := "Cannot validate medicine with status: " ++ m.status,
          medicine := m, audits := [] }) := by
  constructor
  · intro h
    simp [verify_medicine, h]
  · intro h
    simp [validate_medicine, h]

/-- C1 witness: a PHARMACY_VERIFIED row rejects verify and a SUBMITTED row
rejects validate, both untouched. -/
theorem invalid_status_rejection_witness :
    (mkMed "PHARMACY_VERIFIED").status ≠ "SUBMITTED" ∧
    verify_medicine 10 2 (mkMed "PHARMACY_VERIFIED") ⟨none, none⟩ =
      { http := 400, code := some "invalid_status",
        msg := "Cannot verify medicine with status: " ++ (mkMed "PHARMACY_VERIFIED").status,
        medicine := mkMed "PHARMACY_VERIFIED", audits := [] } ∧
    validate_medicine 10 2 (mkMed "SUBMITTED") ⟨none, none⟩ =
      { http := 400, code := some "invalid_status",
        msg := "Cannot validate medicine with status: " ++ (mkMed "SUBMITTED").status,
        medicine := mkMed "SUBMITTED", audits := [] } :=
  ⟨by decide,
   (invalid_status_rejection 10 2 (mkMed "PHARMACY_VERIFIED") ⟨none, none⟩ ⟨none, none⟩).1
     (by decide),
   (invalid_status_rejection 10 2 (mkMed "SUBMITTED") ⟨none, none⟩ ⟨none, none⟩).2
     (by decide)⟩

/-- C2 counterexample: at expiration_date equal to the current instant, an
approved, local, non-recalled declaration is still reported eligible, so
eligibility is not false whenever expiration_date <= now. -/
theorem can_be_redistributed_boundary_counterexample :
    boundary_medicine.expiration_date ≤ 100 ∧
    boundary_medicine.can_be_redistributed 100 = true := by decide

/-- C2 (amended): can_be_redistributed is true exactly when the current
time is not strictly past expiration_date, the declaration is not
imported, not recalled, and the status is APPROVED_FOR_REDISTRIBUTION or
RESTRICTED_USE; in particular it is false whenever expiration_date is
strictly before now. -/
theorem can_be_redistributed_characterization (now : Nat) (m : Medicine) :
    (m.can_be_redistributed now = true ↔
      (now ≤ m.expiration_date ∧ m.is_imported = false ∧ m.is_recalled = false ∧
       (m.status = "APPROVED_FOR_REDISTRIBUTION" ∨ m.status = "RESTRICTED_USE"))) ∧
    (m.expiration_date < now → m.can_be_redistributed now = false) := by
  have hchar : m.can_be_redistributed now = true ↔
      (now ≤ m.expiration_date ∧ m.is_imported = false ∧ m.is_recalled = false ∧
       (m.status = "APPROVED_FOR_REDISTRIBUTION" ∨ m.status = "RESTRICTED_USE")) := by
    unfold Medicine.can_be_redistributed Medicine.is_expired
    by_cases h1 : now > m.expiration_date
    · simp [h1]
    · have h1n : now ≤ m.expiration_date := by omega
      by_cases h2 : m.is_imported
      · simp [h1, h2]
      · by_cases h3 : m.is_recalled
        · simp [h1, h2, h3]
        · simp [h1, h2, h3, h1n, List.contains]
  refine ⟨hchar, ?_⟩
  intro hlt
  cases hcan : m.can_be_redistributed now
  · rfl
  · have := hchar.mp hcan
    omega

/-- C2 witness: the characterization evaluated at a currently eligible row
and at a strictly expired row. -/
theorem can_be_redistributed_characterization_witness :
    (mkMed "RESTRICTED_USE").can_be_redistributed 50 = true ∧
    boundary_medicine.can_be_redistributed 200 = false :=
  ⟨(can_be_redistributed_characterization 50 (mkMed "RESTRICTED_USE")).1.mpr
     (by decide),
   (can_be_redistributed_characterization 200 boundary_medicine).2 (by decide)⟩

/-- C3: evaluation of the declare route at an expired and at a boundary
request. A declaration dated one day in the past is rejected with code
expired_medicine, not expired_date, and the rejection writes one audit
entry rather than none; a declaration dated exactly at the current instant
is accepted and persisted. The validator the repository ships for this
check, validate_date_not_expired, rejects both inputs with expired_date,
which is the behavior the tests of the repository assert. -/
theorem declare_expired_behavior :
    (declare_medicine 86400 1 1 (some expired_declare_data)).code = some "expired_medicine" ∧
    (declare_medicine 86400 1 1 (some expired_declare_data)).medicines = [] ∧
    (declare_medicine 86400 1 1 (some expired_declare_data)).audits.length = 1 ∧
    (declare_medicine 86400 1 1 (some boundary_declare_data)).http = 201 ∧
    (declare_medicine 86400 1 1 (some boundary_declare_data)).medicines.length = 1 ∧
    except_error_code (validate_date_not_expired 86400 0 "expiration_date") =
      some "expired_date" ∧
    except_error_code (validate_date_not_expired 86400 86400 "expiration_date") =
      some "expired_date" := by decide

/-- C8: evaluation of the declare route at invalid quantities. The route
persists a declaration with quantity 0 and one with quantity "abc",
answering 201 with no error in both cases, because it never calls
validate_integer_field; the validator itself, which the tests of the
repository assert the endpoint uses, rejects 0 with integer_below_minimum
and "abc" with invalid_integer_type. -/
theorem declare_quantity_behavior :
    (declare_medicine 0 1 1 (some zero_quantity_data)).http = 201 ∧
    (declare_medicine 0 1 1 (some zero_quantity_data)).code = none ∧
    ((declare_medicine 0 1 1 (some zero_quantity_data)).medicines.map
       (fun m => m.quantity)) = [.int 0] ∧
    (declare_medicine 0 1 1 (some string_quantity_data)).http = 201 ∧
    ((declare_medicine 0 1 1 (some string_quantity_data)).medicines.map
       (fun m => m.quantity)) = [.str "abc"] ∧
    except_error_code (validate_integer_field (.int 0) "quantity" (some 1) none) =
      some "integer_below_minimum" ∧
    except_error_code (validate_integer_field (.str "abc") "quantity" (some 1) none) =
      some "invalid_integer_type" := by decide

/-- C4: on a PHARMACY_VERIFIED declaration, decision APPROVED moves the
status to APPROVED_FOR_REDISTRIBUTION, RESTRICTED to RESTRICTED_USE and
REJECTED to REJECTED_REGULATORY, each stamping the validator identity,
timestamp and notes; a decision that is not APPROVED, RESTRICTED or
REJECTED after the uppercasing the route applies is rejected with
invalid_decision and the row is unchanged. -/
theorem validate_decision_transitions (now uid : Nat) (m : Medicine)
    (notes : Option String) (h : m.status = "PHARMACY_VERIFIED") :
    (validate_medicine now uid m ⟨some "APPROVED", notes⟩ =
      { http := 200, code := none,
        msg := "Medicine regulatory validation completed: APPROVED",
        medicine :=
          { m with
            status := "APPROVED_FOR_REDISTRIBUTION",
            regulatory_validated_at := some now,
            regulatory_validated_by := some uid,
            regulatory_notes := some (notes.getD ""),
            updated_at := now },
        audits := [⟨uid, "MEDICINE_REGULATORY_APPROVED", "MEDICINE", some m.id,
                   [("decision", .str "APPROVED"), ("notes", .str (notes.getD ""))]⟩] }) ∧
    (validate_medicine now uid m ⟨some "RESTRICTED", notes⟩ =
      { http := 200, code := none,
        msg := "Medicine regulatory validation completed: RESTRICTED",
        medicine :=
          { m with
            status := "RESTRICTED_USE",
            regulatory_validated_at := some now,
            regulatory_validated_by := some uid,
            regulatory_notes := some (notes.getD ""),
            updated_at := now },
        audits := [⟨uid, "MEDICINE_REGULATORY_RESTRICTED", "MEDICINE", some m.id,
                   [("decision", .str "RESTRICTED"), ("notes", .str (notes.getD ""))]⟩] }) ∧
    (validate_medicine now uid m ⟨some "REJECTED", notes⟩ =
      { http := 200, code := none,
        msg := "Medicine regulatory validation completed: REJECTED",
        medicine :=
          { m with
            status := "REJECTED_REGULATORY",
            regulatory_validated_at := some now,
            regulatory_validated_by := some uid,
            regulatory_notes := some (notes.getD ""),
            updated_at := now },
        audits := [⟨uid, "MEDICINE_REGULATORY_REJECTED", "MEDICINE", some m.id,
                   [("decision", .str "REJECTED"), ("notes", .str (notes.getD ""))]⟩] }) ∧
    (∀ d : String,
       (["APPROVED", "RESTRICTED", "REJECTED"].contains (pyUpper d)) = false →
       validate_medicine now uid m ⟨some d, notes⟩ =
         { http := 400, code := some "invalid_decision",
           msg := "Invalid decision. Must be one of APPROVED, RESTRICTED, REJECTED",
           medicine := m, audits := [] }) := by
  have hA : pyUpper "APPROVED" = "APPROVED" := by decide
  have hR : pyUpper "RESTRICTED" = "RESTRICTED" := by decide
  have hJ : pyUpper "REJECTED" = "REJECTED" := by decide
  refine ⟨?_, ?_, ?_, ?_⟩
  · simp [validate_medicine, h, hA]
  · simp [validate_medicine, h, hR]
  · simp [validate_medicine, h, hJ]
  · intro d hd
    simp [validate_medicine, h, hd]
    simpa [List.contains] using hd

/-- C4 witness: the three decisions and an unrecognized decision evaluated
on a concrete PHARMACY_VERIFIED row. -/
theorem validate_decision_transitions_witness :
    (validate_medicine 10 3 (mkMed "PHARMACY_VERIFIED") ⟨some "RESTRICTED", some "ok"⟩).medicine.status =
      "RESTRICTED_USE" ∧
    (validate_medicine 10 3 (mkMed "PHARMACY_VERIFIED") ⟨some "MAYBE", some "ok"⟩).code =
      some "invalid_decision" := by
  have hspec :=
    validate_decision_transitions 10 3 (mkMed "PHARMACY_VERIFIED") (some "ok") (by decide)
  refine ⟨?_, ?_⟩
  · rw [hspec.2.1]
  · rw [hspec.2.2.2 "MAYBE" (by decide)]

/-- C5: one sweep run keeps the list length, turns exactly the rows that
are AVAILABLE, active and joined to a declaration expired strictly before
now into EXPIRED, inactive rows stamped expired_at = now and
updated_at = now with every other column kept, leaves every non-matching
row untouched, and is a complete no-op when no row matches. -/
theorem mark_expired_propositions_spec (now : Nat) (meds : List Medicine)
    (props : List Proposition) :
    (mark_expired_propositions now meds props).length = props.length ∧
    (∀ (i : Nat) (p q : Proposition), props[i]? = some p →
       (mark_expired_propositions now meds props)[i]? = some q →
       (sweepMatches now meds p = true →
          q.status = "EXPIRED" ∧ q.is_active = false ∧ q.expired_at = some now ∧
          q.updated_at = now ∧ q.id = p.id ∧
          q.medicine_declaration_id = p.medicine_declaration_id ∧
          q.requesting_facility_id = p.requesting_facility_id ∧
          q.requested_at = p.requested_at ∧ q.created_at = p.created_at) ∧
       (sweepMatches now meds p = false → q = p)) ∧
    ((∀ p ∈ props, sweepMatches now meds p = false) →
       mark_expired_propositions now meds props = props) := by
  refine ⟨by simp [mark_expired_propositions], ?_, ?_⟩
  · intro i p q hp hq
    rw [mark_expired_propositions, List.getElem?_map, hp, Option.map_some'] at hq
    injection hq with hq
    constructor
    · intro hmatch
      rw [if_pos hmatch] at hq
      subst hq
      simp [expireProposition]
    · intro hmatch
      simp only [hmatch, Bool.false_eq_true, if_false] at hq
      exact hq.symm
  · intro hall
    rw [mark_expired_propositions]
    have hid : ∀ p ∈ props,
        (if sweepMatches now meds p then expireProposition now p else p) = p := by
      intro p hp
      simp [hall p hp]
    rw [List.map_congr_left hid]
    simp

/-- C5 witness: a sweep over one fresh proposition with no resolvable
declaration matches nothing and returns the list unchanged. -/
theorem mark_expired_propositions_spec_witness :
    mark_expired_propositions 100 [] [newProposition 0 1 1] = [newProposition 0 1 1] :=
  (mark_expired_propositions_spec 100 [] [newProposition 0 1 1]).2.2 (by decide)

/-- C6: the sweep is idempotent at a fixed current time: a second run over
the output of a first run selects zero rows and changes nothing. -/
theorem sweep_idempotent (now : Nat) (meds : List Medicine)
    (props : List Proposition) :
    mark_expired_propositions now meds (mark_expired_propositions now meds props) =
      mark_expired_propositions now meds props ∧
    expired_candidates now meds (mark_expired_propositions now meds props) = [] := by
  have key : ∀ p : Proposition,
      sweepMatches now meds
        (if sweepMatches now meds p then expireProposition now p else p) = false := by
    intro p
    by_cases hm : sweepMatches now meds p
    · rw [if_pos hm]
      simp [sweepMatches, expireProposition]
    · rw [if_neg hm]
      simpa using hm
  constructor
  · rw [mark_expired_propositions, mark_expired_propositions, List.map_map]
    apply List.map_congr_left
    intro p _
    simp [Function.comp, key p]
  · rw [expired_candidates, mark_expired_propositions, List.filter_map]
    have : props.filter ((fun p => sweepMatches now meds p) ∘
        (fun p => if sweepMatches now meds p then expireProposition now p else p)) = [] := by
      apply List.filter_eq_nil_iff.mpr
      intro p _
      simp [Function.comp, key p]
    rw [this, List.map_nil]

/-- C7: a proposition as created satisfies the invariant that is_active is
false exactly when the status is not AVAILABLE; the per-row sweep update,
the only proposition mutator in the code base besides creation, preserves
that invariant; and the sweep only ever moves a status forward from
AVAILABLE to EXPIRED, never in any other direction. -/
theorem proposition_invariant_preserved (now mid i : Nat)
    (meds : List Medicine) (p : Proposition) :
    propositionInvariant (newProposition now mid i) ∧
    (propositionInvariant p →
      propositionInvariant
        (if sweepMatches now meds p then expireProposition now p else p)) ∧
    ((if sweepMatches now meds p then expireProposition now p else p).status ≠ p.status →
      p.status = "AVAILABLE" ∧
      (if sweepMatches now meds p then expireProposition now p else p).status = "EXPIRED") ∧
    ((∀ q ∈ [p], propositionInvariant q) →
      ∀ q ∈ mark_expired_propositions now meds [p], propositionInvariant q) := by
  have hstep : propositionInvariant p →
      propositionInvariant
        (if sweepMatches now meds p then expireProposition now p else p) := by
    intro hp
    by_cases hm : sweepMatches now meds p
    · simp [hm, expireProposition, propositionInvariant]
    · simpa [hm] using hp
  refine ⟨by simp [newProposition, propositionInvariant], hstep, ?_, ?_⟩
  · intro hne
    by_cases hm : sweepMatches now meds p
    · have hav : p.status = "AVAILABLE" := by
        have := hm
        rw [sweepMatches] at this
        simp only [Bool.and_eq_true, beq_iff_eq] at this
        exact this.1.1
      exact ⟨hav, by simp [hm, expireProposition]⟩
    · simp only [hm, Bool.false_eq_true, if_false] at hne
      exact absurd rfl hne
  · intro hall q hq
    rw [mark_expired_propositions] at hq
    simp only [List.map_cons, List.map_nil, List.mem_singleton] at hq
    subst hq
    exact hstep (hall p (by simp))

/-- C7 witness: the invariant at a fresh row, its preservation through a
matching sweep, and the forward AVAILABLE to EXPIRED move on that row. -/
theorem proposition_invariant_preserved_witness :
    propositionInvariant (newProposition 100 1 1) ∧
    propositionInvariant
      (if sweepMatches 100 [sweep_sample_medicine] (newProposition 100 1 1) then
        expireProposition 100 (newProposition 100 1 1)
      else newProposition 100 1 1) ∧
    (newProposition 100 1 1).status = "AVAILABLE" ∧
    (if sweepMatches 100 [sweep_sample_medicine] (newProposition 100 1 1) then
        expireProposition 100 (newProposition 100 1 1)
      else newProposition 100 1 1).status = "EXPIRED" := by
  obtain ⟨h1, h2, h3, _⟩ :=
    proposition_invariant_preserved 100 1 1 [sweep_sample_medicine] (newProposition 100 1 1)
  refine ⟨h1, h2 (by decide), ?_, ?_⟩
  · exact (h3 (by decide)).1
  · exact (h3 (by decide)).2

/-- C9: the role vocabulary is exactly CITIZEN, PHARMACIST,
HEALTH_FACILITY and ADMIN, so REGULATORY_AGENT is not a valid role, a
well-formed registration request asking for it is rejected with
invalid_role, and every user registration does create carries a role that
can never pass the REGULATORY_AGENT gate of the validate route. -/
theorem regulatory_agent_role_excluded :
    all_roles = ["CITIZEN", "PHARMACIST", "HEALTH_FACILITY", "ADMIN"] ∧
    role_is_valid "REGULATORY_AGENT" = false ∧
    (∀ (existing : List UserRow) (new_id : Nat) (data : RegisterData),
       data.username.isSome = true → data.email.isSome = true →
       data.password.isSome = true → data.role = some "REGULATORY_AGENT" →
       except_error_code (register existing new_id data) = some "invalid_role") ∧
    (∀ (existing : List UserRow) (new_id : Nat) (data : RegisterData) (u : UserRow),
       register existing new_id data = .ok u →
       role_required "REGULATORY_AGENT" (some u) = false) := by
  refine ⟨rfl, by decide, ?_, ?_⟩
  · intro existing new_id data hu he hp hr
    obtain ⟨du, de, dp, dr⟩ := data
    dsimp only at hu he hp hr
    subst hr
    cases du with
    | none => simp at hu
    | some su =>
      cases de with
      | none => simp at he
      | some se =>
        cases dp with
        | none => simp at hp
        | some sp =>
          simp [register, except_error_code, role_is_valid, all_roles]
  · intro existing new_id data u h
    simp only [register] at h
    split at h
    · cases h
    · split at h
      · cases h
      · split at h
        · cases h
        · split at h
          · cases h
          · rename_i hvalid _ _
            injection h with h
            subst h
            have hv : role_is_valid (data.role.getD "CITIZEN") = true := by
              cases hb : role_is_valid (data.role.getD "CITIZEN")
              · exact absurd (by simp [hb]) hvalid
              · rfl
            have hmem : (data.role.getD "CITIZEN") ∈ all_roles := by
              simpa [role_is_valid] using hv
            simp only [all_roles, List.mem_cons, List.not_mem_nil, or_false] at hmem
            rcases hmem with h | h | h | h <;>
              simp [role_required, h]

/-- C9 witness: a registration asking for REGULATORY_AGENT is rejected
with invalid_role, and a registered user fails the REGULATORY_AGENT gate. -/
theorem regulatory_agent_role_excluded_witness :
    except_error_code
      (register [] 1 ⟨some "agent", some "agent@example.com", some "pw",
        some "REGULATORY_AGENT"⟩) = some "invalid_role" ∧
    role_required "REGULATORY_AGENT"
      (some ⟨1, "citizen1", "c@example.com", "CITIZEN", true⟩) = false := by
  refine ⟨?_, ?_⟩
  · exact regulatory_agent_role_excluded.2.2.1 [] 1
      ⟨some "agent", some "agent@example.com", some "pw", some "REGULATORY_AGENT"⟩
      rfl rfl rfl rfl
  · exact regulatory_agent_role_excluded.2.2.2 [] 1
      ⟨some "citizen1", some "c@example.com", some "pw", none⟩
      ⟨1, "citizen1", "c@example.com", "CITIZEN", true⟩ rfl

/-- C10: on a PHARMACY_VERIFIED declaration, validate with no decision
field defaults to APPROVED and moves the status to
APPROVED_FOR_REDISTRIBUTION, and a decision whose uppercasing is APPROVED
does the same (case-insensitive matching); on a SUBMITTED declaration,
verify with no is_valid field defaults to approval and moves the status to
PHARMACY_VERIFIED. -/
theorem default_decision_and_verification (now uid : Nat) (m : Medicine)
    (notes : Option String) :
    (m.status = "PHARMACY_VERIFIED" →
       (validate_medicine now uid m ⟨none, notes⟩).medicine.status =
         "APPROVED_FOR_REDISTRIBUTION" ∧
       (validate_medicine now uid m ⟨none, notes⟩).code = none) ∧
    (∀ d : String, m.status = "PHARMACY_VERIFIED" → pyUpper d = "APPROVED" →
       (validate_medicine now uid m ⟨some d, notes⟩).medicine.status =
         "APPROVED_FOR_REDISTRIBUTION" ∧
       (validate_medicine now uid m ⟨some d, notes⟩).code = none) ∧
    (m.status = "SUBMITTED" →
       (verify_medicine now uid m ⟨none, notes⟩).medicine.status =
         "PHARMACY_VERIFIED" ∧
       (verify_medicine now uid m ⟨none, notes⟩).code = none) := by
  have hA : pyUpper "APPROVED" = "APPROVED" := by decide
  refine ⟨?_, ?_, ?_⟩
  · intro h
    simp [validate_medicine, h, hA]
  · intro d h hup
    simp [validate_medicine, h, hup]
  · intro h
    simp [verify_medicine, h]

/-- C10 witness: the defaults and the lowercase decision evaluated on
concrete rows. -/
theorem default_decision_and_verification_witness :
    (validate_medicine 10 3 (mkMed "PHARMACY_VERIFIED") ⟨none, none⟩).medicine.status =
      "APPROVED_FOR_REDISTRIBUTION" ∧
    (validate_medicine 10 3 (mkMed "PHARMACY_VERIFIED") ⟨some "approved", none⟩).medicine.status =
      "APPROVED_FOR_REDISTRIBUTION" ∧
    (verify_medicine 10 2 (mkMed "SUBMITTED") ⟨none, none⟩).medicine.status =
      "PHARMACY_VERIFIED" := by
  obtain ⟨h1, h2, _⟩ :=
    default_decision_and_verification 10 3 (mkMed "PHARMACY_VERIFIED") none
  obtain ⟨_, _, h4⟩ :=
    default_decision_and_verification 10 2 (mkMed "SUBMITTED") none
  exact ⟨(h1 (by decide)).1, (h2 "approved" (by decide) (by decide)).1,
         (h4 (by decide)).1⟩

end TuniMed
